import Mathlib

/-
Verification development for the Gateway Connection and Authentication Engine
of the ZX-OS T-Embed firmware (src/src/core/gateway_client.h and its
specification).  The implementation file of GatewayClient is not part of the
available source surface; the definitions below therefore follow the header
(data model, default member initializers, helper signatures) and, where only
the header declares an operation, the natural-language specification of the
engine.  Each such definition carries a doc comment saying what it models.
-/

/-- The ten decimal digit characters in value order. -/
def decDigits : List Char :=
  "0123456789".data

/-- Decimal digit to character, as used when rendering counters and ports. -/
def digitChar (d : Nat) : Char :=
  decDigits.getD d '9'

/-- Character to decimal digit value, used by the port parser. -/
def digitVal (c : Char) : Option Nat :=
  decDigits.indexOf? c

/-- Fuel-driven most-significant-digit-first decimal rendering. -/
def natDecCharsAux : Nat → Nat → List Char
  | 0, _ => []
  | fuel + 1, n =>
      if n < 10 then [digitChar n]
      else natDecCharsAux fuel (n / 10) ++ [digitChar (n % 10)]

/-- Most-significant-digit-first decimal rendering of a natural number. -/
def natDecChars (n : Nat) : List Char :=
  natDecCharsAux (n + 1) n

/-- Value of a list of decimal digit characters, most significant first. -/
def decNum (cs : List Char) : Nat :=
  cs.foldl (fun a c => a * 10 + (c.toNat - 48)) 0

/-- URL-safe base64 alphabet in index order, as used by the engine. -/
def b64Alphabet : List Char :=
  "ABCDEFGHIJKLMNOPQRSTUVWXYZabcdefghijklmnopqrstuvwxyz0123456789-_".data

/-- Character for a 6-bit group. -/
def b64Char (v : Nat) : Char :=
  b64Alphabet.getD v 'A'

/-- 6-bit value of an alphabet character; none for characters outside the
URL-safe alphabet. -/
def b64Val (c : Char) : Option Nat :=
  b64Alphabet.indexOf? c

/-- Modelled from the spec: GatewayClient::encodeBase64Url is not in the
available source surface; per the specification it is standard base64 over
the URL-safe alphabet with no padding emitted.  Bytes are consumed three at
a time; a 1-byte tail yields two characters and a 2-byte tail three. -/
def encodeBase64UrlChars : List Nat → List Char
  | [] => []
  | [a] => [b64Char (a / 4), b64Char (a % 4 * 16)]
  | [a, b] => [b64Char (a / 4), b64Char (a % 4 * 16 + b / 16), b64Char (b % 16 * 4)]
  | a :: b :: c :: rest =>
      b64Char (a / 4) :: b64Char (a % 4 * 16 + b / 16) ::
      b64Char (b % 16 * 4 + c / 64) :: b64Char (c % 64) :: encodeBase64UrlChars rest

/-- String wrapper matching the header signature returning an Arduino String. -/
def encodeBase64Url (data : List Nat) : String :=
  String.mk (encodeBase64UrlChars data)

/-- First output byte of a decoded base64 quantum. -/
def decodeB64First (v1 v2 : Nat) : Nat := v1 * 4 + v2 / 16

/-- Second output byte of a decoded base64 quantum. -/
def decodeB64Second (v2 v3 : Nat) : Nat := v2 % 16 * 16 + v3 / 4

/-- Third output byte of a decoded base64 quantum. -/
def decodeB64Third (v3 v4 : Nat) : Nat := v3 % 4 * 64 + v4

/-- Modelled from the spec: GatewayClient::decodeBase64Url is not in the
available source surface; per the specification it decodes unpadded
URL-safe base64, failing on malformed input (a character outside the
alphabet, or a dangling single character). -/
def decodeBase64UrlChars : List Char → Option (List Nat)
  | [] => some []
  | [c1, c2] =>
      match b64Val c1, b64Val c2 with
      | some v1, some v2 => some [decodeB64First v1 v2]
      | _, _ => none
  | [c1, c2, c3] =>
      match b64Val c1, b64Val c2, b64Val c3 with
      | some v1, some v2, some v3 =>
          some [decodeB64First v1 v2, decodeB64Second v2 v3]
      | _, _, _ => none
  | c1 :: c2 :: c3 :: c4 :: rest =>
      match b64Val c1, b64Val c2, b64Val c3, b64Val c4, decodeBase64UrlChars rest with
      | some v1, some v2, some v3, some v4, some tail =>
          some (decodeB64First v1 v2 :: decodeB64Second v2 v3 ::
                decodeB64Third v3 v4 :: tail)
      | _, _, _, _, _ => none
  | _ => none

/-- Modelled from the spec: the caller of decodeBase64Url supplies the exact
expected output length and the call fails on a size mismatch. -/
def decodeBase64Url (s : String) (outLen : Nat) : Option (List Nat) :=
  match decodeBase64UrlChars s.data with
  | some bs => if bs.length = outLen then some bs else none
  | none => none

/-- 32-bit truncation used throughout the hash arithmetic. -/
def w32 (x : Nat) : Nat := x % 4294967296

/-- 32-bit right rotation. -/
def rotr32 (x n : Nat) : Nat :=
  w32 (x / 2 ^ n + x % 2 ^ n * 2 ^ (32 - n))

/-- SHA-256 round constants. -/
def sha256K : List Nat :=
  [1116352408, 1899447441, 3049323471, 3921009573, 961987163, 1508970993,
   2453635748, 2870763221, 3624381080, 310598401, 607225278, 1426881987,
   1925078388, 2162078206, 2614888103, 3248222580, 3835390401, 4022224774,
   264347078, 604807628, 770255983, 1249150122, 1555081692, 1996064986,
   2554220882, 2821834349, 2952996808, 3210313671, 3336571891, 3584528711,
   113926993, 338241895, 666307205, 773529912, 1294757372, 1396182291,
   1695183700, 1986661051, 2177026350, 2456956037, 2730485921, 2820302411,
   3259730800, 3345764771, 3516065817, 3600352804, 4094571909, 275423344,
   430227734, 506948616, 659060556, 883997877, 958139571, 1322822218,
   1537002063, 1747873779, 1955562222, 2024104815, 2227730452, 2361852424,
   2428436474, 2756734187, 3204031479, 3329325298]

/-- SHA-256 initial hash value. -/
def sha256H0 : List Nat :=
  [1779033703, 3144134277, 1013904242, 2773480762,
   1359893119, 2600822924, 528734635, 1541459225]

/-- Big-endian 64-bit length field of the SHA-256 padding. -/
def be64 (n : Nat) : List Nat :=
  [n / 2 ^ 56 % 256, n / 2 ^ 48 % 256, n / 2 ^ 40 % 256, n / 2 ^ 32 % 256,
   n / 2 ^ 24 % 256, n / 2 ^ 16 % 256, n / 2 ^ 8 % 256, n % 256]

/-- SHA-256 message padding of a byte string. -/
def sha256Pad (msg : List Nat) : List Nat :=
  msg ++ [0x80] ++ List.replicate ((119 - msg.length % 64) % 64) 0 ++
    be64 (msg.length * 8)

/-- Big-endian 32-bit words of a byte block. -/
def beWords : List Nat → List Nat
  | b0 :: b1 :: b2 :: b3 :: rest =>
      (b0 * 2 ^ 24 + b1 * 2 ^ 16 + b2 * 2 ^ 8 + b3) :: beWords rest
  | _ => []

/-- Appends one message-schedule word per unit of fuel. -/
def sha256ExtendAux : Nat → List Nat → List Nat
  | 0, w => w
  | fuel + 1, w =>
      let i := w.length
      let x15 := w.getD (i - 15) 0
      let x2 := w.getD (i - 2) 0
      let s0 := (rotr32 x15 7) ^^^ (rotr32 x15 18) ^^^ (x15 / 2 ^ 3)
      let s1 := (rotr32 x2 17) ^^^ (rotr32 x2 19) ^^^ (x2 / 2 ^ 10)
      sha256ExtendAux fuel (w ++ [w32 (w.getD (i - 16) 0 + s0 + w.getD (i - 7) 0 + s1)])

/-- SHA-256 message-schedule extension of a 16-word block to 64 words. -/
def sha256Extend (w : List Nat) : List Nat :=
  sha256ExtendAux 48 w

/-- One SHA-256 compression round on the eight working registers. -/
def sha256Round (kw : Nat) (st : List Nat) : List Nat :=
  match st with
  | [a, b, c, d, e, f, g, h] =>
      let s1 := (rotr32 e 6) ^^^ (rotr32 e 11) ^^^ (rotr32 e 25)
      let ch := (e &&& f) ^^^ ((4294967295 - e) &&& g)
      let t1 := w32 (h + s1 + ch + kw)
      let s0 := (rotr32 a 2) ^^^ (rotr32 a 13) ^^^ (rotr32 a 22)
      let mj := (a &&& b) ^^^ (a &&& c) ^^^ (b &&& c)
      let t2 := w32 (s0 + mj)
      [w32 (t1 + t2), a, b, c, w32 (d + t1), e, f, g]
  | other => other

/-- SHA-256 compression of one 64-byte block into the chaining state. -/
def sha256Compress (hs : List Nat) (block : List Nat) : List Nat :=
  let w := sha256Extend (beWords block)
  let kw := List.zipWith (fun k x => w32 (k + x)) sha256K w
  let final := kw.foldl (fun st c => sha256Round c st) hs
  List.zipWith (fun x y => w32 (x + y)) hs final

/-- Takes one 64-byte block per unit of fuel. -/
def blocks64Aux : Nat → List Nat → List (List Nat)
  | 0, _ => []
  | fuel + 1, msg =>
      if msg = [] then []
      else msg.take 64 :: blocks64Aux fuel (msg.drop 64)

/-- Split a padded message into 64-byte blocks. -/
def blocks64 (msg : List Nat) : List (List Nat) :=
  blocks64Aux msg.length msg

/-- SHA-256 of a byte string, as the list of 32 digest bytes. -/
def sha256Bytes (msg : List Nat) : List Nat :=
  let hs := (blocks64 (sha256Pad msg)).foldl sha256Compress sha256H0
  hs.foldr (fun x acc =>
    (x / 2 ^ 24 % 256) :: (x / 2 ^ 16 % 256) :: (x / 2 ^ 8 % 256) :: (x % 256) :: acc) []

/-- Lowercase hexadecimal character of a 4-bit value. -/
def hexChar (d : Nat) : Char :=
  "0123456789abcdef".data.getD d 'f'

/-- Lowercase hex rendering of a byte string. -/
def bytesToHex (bs : List Nat) : String :=
  String.mk (bs.foldr (fun b acc => hexChar (b / 16 % 16) :: hexChar (b % 16) :: acc) [])

/-- Modelled from the header declaration String sha256Hex(data, len): the
lowercase hex digest of SHA-256 over the given bytes. -/
def sha256Hex (data : List Nat) : String :=
  bytesToHex (sha256Bytes data)

/-- ASCII bytes of a string (the engine signs ASCII payload strings). -/
def strBytes (s : String) : List Nat :=
  s.data.map Char.toNat

/-- Standard HMAC-SHA256 keyed hash: the construction the specification names
as its example of a keyed cryptographic hash with the secret as key. -/
def hmacSha256 (key msg : List Nat) : List Nat :=
  let k1 := if 64 < key.length then sha256Bytes key else key
  let k0 := k1 ++ List.replicate (64 - k1.length) 0
  let ip := k0.map (fun b => b ^^^ 0x36)
  let op := k0.map (fun b => b ^^^ 0x5c)
  sha256Bytes (op ++ sha256Bytes (ip ++ msg))

/-- Endpoint record mirroring GatewayClient::GatewayEndpoint (the valid flag
of the C++ out-parameter is the isSome of the Option result here). -/
structure GatewayEndpoint where
  secure : Bool
  host : String
  port : Nat
  path : String
deriving DecidableEq

/-- Split a character list at the first occurrence of a separator; the second
component is none when the separator does not occur. -/
def splitAtFirst (sep : Char) : List Char → List Char × Option (List Char)
  | [] => ([], none)
  | x :: xs =>
      if x = sep then ([], some xs)
      else
        let r := splitAtFirst sep xs
        (x :: r.1, r.2)

/-- Modelled from the spec: the port text of a URL must be non-empty, all
decimal digits, and in range 1..65535, per the structural-violation rule of
the Endpoint Resolver (non-numeric or out-of-range port is InvalidUrl). -/
def parsePortNumber (cs : List Char) : Option Nat :=
  if cs = [] then none
  else if cs.all (fun c => (digitVal c).isSome) then
    if 1 ≤ cs.foldl (fun a c => a * 10 + ((digitVal c).getD 0)) 0 ∧
       cs.foldl (fun a c => a * 10 + ((digitVal c).getD 0)) 0 ≤ 65535 then
      some (cs.foldl (fun a c => a * 10 + ((digitVal c).getD 0)) 0)
    else none
  else none

/-- Host and port of the authority part, after scheme and path removal. -/
def parseHostPort (hostPort : List Char) (defaultPort : Nat) :
    Option (List Char × Nat) :=
  match hostPort with
  | '[' :: inner =>
      match (splitAtFirst ']' inner).2 with
      | none => none
      | some after =>
          if (splitAtFirst ']' inner).1 = [] then none
          else
            match after with
            | ':' :: portCs =>
                match parsePortNumber portCs with
                | some p => some ((splitAtFirst ']' inner).1, p)
                | none => none
            | _ => some ((splitAtFirst ']' inner).1, defaultPort)
  | c0 :: tail =>
      if ((c0 :: tail).filter (fun c => c = ':')).length = 1 ∧ c0 ≠ ':' then
        match (splitAtFirst ':' (c0 :: tail)).2 with
        | some portCs =>
            match parsePortNumber portCs with
            | some p => some ((splitAtFirst ':' (c0 :: tail)).1, p)
            | none => none
        | none => none
      else some (c0 :: tail, defaultPort)
  | [] => none

/-- Authority-and-path stage of the Endpoint Resolver. -/
def parseGatewayRest (secure : Bool) (defaultPort : Nat) (rest : List Char) :
    Option GatewayEndpoint :=
  if (splitAtFirst '/' rest).1 = [] then none
  else
    match parseHostPort (splitAtFirst '/' rest).1 defaultPort with
    | some hp =>
        if hp.1 = [] then none
        else some { secure := secure, host := String.mk hp.1, port := hp.2,
                    path := match (splitAtFirst '/' rest).2 with
                            | none => "/"
                            | some p => String.mk ('/' :: p) }
    | none => none

/-- Modelled from the spec: GatewayClient::parseGatewayUrl is not in the
available source surface; this follows section 4.1 of the specification and
mirrors the caller-side parseWsUrl of the application: only the literal
prefixes of the insecure and secure schemes are accepted, the first slash
separates authority from path (path defaults to the root path), bracketed
IPv6 literals and a colon port suffix are supported, the port defaults to
80 or 443 by scheme, and an empty host is rejected.  A pure function. -/
def parseGatewayUrl (rawUrl : String) : Option GatewayEndpoint :=
  match rawUrl.data with
  | 'w' :: 's' :: ':' :: '/' :: '/' :: rest => parseGatewayRest false 80 rest
  | 'w' :: 's' :: 's' :: ':' :: '/' :: '/' :: rest => parseGatewayRest true 443 rest
  | _ => none

/-- Runtime configuration slice consumed by the gateway engine: the URL and
the shared credential (token or password), plus the auth-mode selection of
which credential is primary. -/
structure RuntimeConfig where
  gatewayUrl : String
  gatewayToken : String
  gatewayPassword : String
  preferSharedAuth : Bool
deriving DecidableEq

/-- True when a shared credential (token or password) is configured,
mirroring GatewayClient::hasSharedCredential. -/
def hasSharedCredential (cfg : RuntimeConfig) : Bool :=
  !cfg.gatewayToken.isEmpty || !cfg.gatewayPassword.isEmpty

/-- Connection states of the machine: Idle, Connecting, TransportOpen,
Authenticating, Ready. -/
inductive ConnState
  | Idle
  | Connecting
  | TransportOpen
  | Authenticating
  | Ready
deriving DecidableEq

/-- Transient per-handshake state, one per connection attempt, mirroring the
connect-attempt members of the header. -/
structure ConnectAttempt where
  nonce : String
  challengeIssuedAtMs : Nat
  queuedAtMs : Nat
  requestSent : Bool
  usedDeviceToken : Bool
  canFallbackToShared : Bool
deriving DecidableEq

/-- One in-flight correlated request. -/
structure PendingRequest where
  id : String
  method : String
deriving DecidableEq

/-- Inbox entry, mirroring struct GatewayInboxMessage of the header. -/
structure GatewayInboxMessage where
  id : String
  event : String
  msgType : String
  msgFrom : String
  msgTo : String
  text : String
  fileName : String
  contentType : String
  voiceBytes : Nat
  tsMs : Nat
deriving DecidableEq

/-- Read-only status projection, mirroring struct GatewayStatus. -/
structure GatewayStatus where
  shouldConnect : Bool
  wsConnected : Bool
  gatewayReady : Bool
  lastError : String
  lastConnectAttemptMs : Nat
  lastConnectOkMs : Nat
deriving DecidableEq

/-- Inbox capacity, mirroring GatewayClient::kInboxCapacity = 24. -/
def kInboxCapacity : Nat := 24

/-- Modelled from the spec: GatewayClient::pushInboxMessage is not in the
available source surface; per the specification the push appends and, when
the count equals the capacity, first evicts index 0 (oldest-first FIFO
eviction).  The ring buffer of the header is modelled by its list of
messages in insertion order. -/
def pushInboxMessage (inbox : List GatewayInboxMessage)
    (m : GatewayInboxMessage) : List GatewayInboxMessage :=
  if inbox.length = kInboxCapacity then inbox.drop 1 ++ [m]
  else inbox ++ [m]

/-- Number of stored inbox messages, mirroring GatewayClient::inboxCount. -/
def inboxCount (inbox : List GatewayInboxMessage) : Nat :=
  inbox.length

/-- Empties the inbox, mirroring GatewayClient::clearInbox. -/
def clearInbox (_inbox : List GatewayInboxMessage) : List GatewayInboxMessage :=
  []

/-- Engine state: the private members of GatewayClient, with the transient
connect-attempt members grouped into an Option ConnectAttempt and the
request correlator held as a list of pending requests. -/
structure EngineState where
  config : RuntimeConfig
  connState : ConnState
  shouldConnect : Bool
  wsConnected : Bool
  gatewayReady : Bool
  connectRequestId : String
  reqCounter : Nat
  lastError : String
  lastConnectAttemptMs : Nat
  lastConnectOkMs : Nat
  attempt : Option ConnectAttempt
  pending : List PendingRequest
  inbox : List GatewayInboxMessage
  tlsFailStreak : Nat
deriving DecidableEq

/-- Freshly constructed engine, from the default member initializers of the
header: every flag false, counters zero, strings empty, no attempt, no
pending requests, empty inbox. -/
def initState : EngineState :=
  { config := { gatewayUrl := "", gatewayToken := "", gatewayPassword := "",
                preferSharedAuth := false }
    connState := ConnState.Idle
    shouldConnect := false
    wsConnected := false
    gatewayReady := false
    connectRequestId := ""
    reqCounter := 0
    lastError := ""
    lastConnectAttemptMs := 0
    lastConnectOkMs := 0
    attempt := none
    pending := []
    inbox := []
    tlsFailStreak := 0 }

/-- Modelled from the spec: status() recomputes the read-only projection from
the internal state on demand. -/
def status (s : EngineState) : GatewayStatus :=
  { shouldConnect := s.shouldConnect
    wsConnected := s.wsConnected
    gatewayReady := s.gatewayReady
    lastError := s.lastError
    lastConnectAttemptMs := s.lastConnectAttemptMs
    lastConnectOkMs := s.lastConnectOkMs }

/-- Modelled from the spec: isReady() is the gatewayReady flag; sends are
refused whenever it is false. -/
def isReady (s : EngineState) : Bool :=
  s.gatewayReady

/-- Request-id string: human-readable tag, a separator, and the decimal
counter value, giving lexical uniqueness across distinct counter values. -/
def reqIdString (tag : String) (n : Nat) : String :=
  tag ++ "-" ++ String.mk (natDecChars n)

/-- Modelled from the spec: GatewayClient::nextReqId combines a prefix tag
with the monotonically increasing reqCounter member, which never resets
except on full engine restart. -/
def nextReqId (s : EngineState) (tag : String) : String × EngineState :=
  (reqIdString tag (s.reqCounter + 1), { s with reqCounter := s.reqCounter + 1 })

/-- Correlator lookup: method of the pending request with the given id. -/
def lookupPending (ps : List PendingRequest) (rid : String) : Option String :=
  match ps with
  | [] => none
  | p :: rest => if p.id = rid then some p.method else lookupPending rest rid

/-- Correlator removal of a resolved request id. -/
def removePending (ps : List PendingRequest) (rid : String) : List PendingRequest :=
  ps.filter (fun p => p.id ≠ rid)

/-- Observable transport-side effects of a transition. -/
inductive GatewayOutput
  | openTransport (e : GatewayEndpoint)
  | connectFrame (usedDeviceToken : Bool) (requestId : String)
  | frameSent (method : String) (requestId : String)
  | invokeOkFrame (invokeId nodeId : String) (requestId : String)
  | invokeErrorFrame (invokeId nodeId code message : String) (requestId : String)
  | requestNotFoundLog (id : String)
deriving DecidableEq

/-- Result carried by an inbound response frame. -/
inductive GatewayResponse
  | ok
  | authRejected
  | otherError (code : String)
deriving DecidableEq

/-- Inputs that drive the machine: the public API calls, the timer pump, the
transport callbacks, and decoded inbound frames. -/
inductive GatewayEvent
  | configure (cfg : RuntimeConfig)
  | connectNow
  | reconnectNow
  | disconnectNow
  | tickTimer (nowMs : Nat)
  | transportOpen (nonce : String) (nowMs : Nat)
  | transportClosed (duringTls : Bool) (detail : String)
  | response (rid : String) (res : GatewayResponse) (nowMs : Nat)
  | messageEvent (m : GatewayInboxMessage)

/-- Modelled from the spec: the unconditional teardown shared by transport
close, disconnectNow, reconnectNow and credential-invalidating
reconfiguration — back to Idle, wsConnected and gatewayReady cleared, the
ConnectAttempt and all PendingRequests discarded. -/
def teardownToIdle (s : EngineState) (err : String) : EngineState :=
  { s with connState := ConnState.Idle
           wsConnected := false
           gatewayReady := false
           attempt := none
           pending := []
           connectRequestId := ""
           lastError := err }

/-- Retry interval: the 3.5 second baseline, doubled per entry of the
secure-transport failure streak up to a ceiling. -/
def gatewayRetryMs (streak : Nat) : Nat :=
  3500 * 2 ^ min streak 4

/-- Modelled from the spec: one transition of the Connection State Machine,
together with its transport-side outputs.  configure updates the stored
configuration and forces a disconnect when the URL or credentials
materially change while connected, or when the URL is removed; connectNow
and reconnectNow set shouldConnect (reconnectNow after a full teardown);
disconnectNow is the sole cancellation primitive; the timer opens the
transport from Idle after the backoff interval; transport open starts the
handshake with a fresh ConnectAttempt and the connect request; transport
close tears everything down and feeds the TLS failure streak; a response
frame is correlated by id against the pending requests (an unmatched id is
RequestNotFound and is only logged), and a response to the connect request
either completes the handshake, retries it once over the shared-credential
fallback, or fails the attempt into backoff; a message event is captured
into the bounded inbox. -/
def gatewayStep (s : EngineState) (e : GatewayEvent) :
    EngineState × List GatewayOutput :=
  match e with
  | GatewayEvent.configure cfg =>
      if cfg.gatewayUrl.isEmpty then
        ({ teardownToIdle s s.lastError with config := cfg, shouldConnect := false }, [])
      else if cfg ≠ s.config ∧ s.wsConnected = true then
        ({ teardownToIdle s s.lastError with config := cfg }, [])
      else ({ s with config := cfg }, [])
  | GatewayEvent.connectNow =>
      match parseGatewayUrl s.config.gatewayUrl with
      | some _ => ({ s with shouldConnect := true }, [])
      | none => ({ s with lastError := "NotConfigured" }, [])
  | GatewayEvent.reconnectNow =>
      match parseGatewayUrl s.config.gatewayUrl with
      | some _ => ({ teardownToIdle s s.lastError with shouldConnect := true }, [])
      | none => ({ s with lastError := "NotConfigured" }, [])
  | GatewayEvent.disconnectNow =>
      ({ teardownToIdle s s.lastError with shouldConnect := false }, [])
  | GatewayEvent.tickTimer nowMs =>
      if s.shouldConnect = true ∧ s.connState = ConnState.Idle then
        match parseGatewayUrl s.config.gatewayUrl with
        | some ep =>
            if s.lastConnectAttemptMs = 0 ∨
               gatewayRetryMs s.tlsFailStreak ≤ nowMs - s.lastConnectAttemptMs then
              ({ s with connState := ConnState.Connecting,
                        lastConnectAttemptMs := nowMs },
               [GatewayOutput.openTransport ep])
            else (s, [])
        | none => ({ s with lastError := "NotConfigured" }, [])
      else (s, [])
  | GatewayEvent.transportOpen nonce nowMs =>
      if s.connState = ConnState.Connecting then
        let usedDev := !s.config.preferSharedAuth
        let rid := (nextReqId s "connect").1
        let s1 := (nextReqId s "connect").2
        ({ s1 with connState := ConnState.Authenticating
                   wsConnected := true
                   connectRequestId := rid
                   attempt := some { nonce := nonce
                                     challengeIssuedAtMs := nowMs
                                     queuedAtMs := nowMs
                                     requestSent := true
                                     usedDeviceToken := usedDev
                                     canFallbackToShared :=
                                       usedDev && hasSharedCredential s.config }
                   pending := [{ id := rid, method := "connect" }] },
         [GatewayOutput.connectFrame usedDev rid])
      else (s, [])
  | GatewayEvent.transportClosed duringTls detail =>
      ({ teardownToIdle s detail with
           tlsFailStreak := if duringTls then s.tlsFailStreak + 1 else s.tlsFailStreak },
       [])
  | GatewayEvent.response rid res nowMs =>
      match lookupPending s.pending rid with
      | none => (s, [GatewayOutput.requestNotFoundLog rid])
      | some _ =>
          let s0 := { s with pending := removePending s.pending rid }
          if rid = s.connectRequestId then
            match res with
            | GatewayResponse.ok =>
                ({ s0 with gatewayReady := true
                           connState := ConnState.Ready
                           lastConnectOkMs := nowMs
                           lastError := ""
                           attempt := none
                           tlsFailStreak := 0 }, [])
            | GatewayResponse.authRejected =>
                match s.attempt with
                | some att =>
                    if att.usedDeviceToken = true ∧ att.canFallbackToShared = true ∧
                       hasSharedCredential s.config = true then
                      let rid2 := (nextReqId s0 "connect").1
                      let s1 := (nextReqId s0 "connect").2
                      ({ s1 with attempt := some { att with
                                                     usedDeviceToken := false
                                                     canFallbackToShared := false }
                                 connectRequestId := rid2
                                 pending := { id := rid2, method := "connect" } ::
                                            s1.pending },
                       [GatewayOutput.connectFrame false rid2])
                    else (teardownToIdle s0 "AuthRejected", [])
                | none => (teardownToIdle s0 "AuthRejected", [])
            | GatewayResponse.otherError code => (teardownToIdle s0 code, [])
          else (s0, [])
  | GatewayEvent.messageEvent m =>
      ({ s with inbox := pushInboxMessage s.inbox m }, [])

/-- Modelled from the spec: sendNodeEvent wraps the payload in an envelope
and writes a frame; it returns false and performs no transport write and no
state change when the engine is not ready. -/
def sendNodeEvent (s : EngineState) (eventName : String) :
    Bool × EngineState × List GatewayOutput :=
  if isReady s = true then
    let rid := (nextReqId s "evt").1
    let s1 := (nextReqId s "evt").2
    (true, { s1 with pending := { id := rid, method := eventName } :: s1.pending },
     [GatewayOutput.frameSent eventName rid])
  else (false, s, [])

/-- Modelled from the spec: sendInvokeOk, same readiness contract. -/
def sendInvokeOk (s : EngineState) (invokeId nodeId : String) :
    Bool × EngineState × List GatewayOutput :=
  if isReady s = true then
    let rid := (nextReqId s "inv").1
    let s1 := (nextReqId s "inv").2
    (true, { s1 with pending := { id := rid, method := "invoke.result" } :: s1.pending },
     [GatewayOutput.invokeOkFrame invokeId nodeId rid])
  else (false, s, [])

/-- Modelled from the spec: sendInvokeError, same readiness contract. -/
def sendInvokeError (s : EngineState) (invokeId nodeId code message : String) :
    Bool × EngineState × List GatewayOutput :=
  if isReady s = true then
    let rid := (nextReqId s "inv").1
    let s1 := (nextReqId s "inv").2
    (true, { s1 with pending := { id := rid, method := "invoke.result" } :: s1.pending },
     [GatewayOutput.invokeErrorFrame invokeId nodeId code message rid])
  else (false, s, [])

/-- States reachable from a freshly constructed engine by any sequence of
API calls, timer pumps, transport callbacks and inbound frames, including
the send operations. -/
inductive Reachable : EngineState → Prop
  | init : Reachable initState
  | stepTo (s : EngineState) (e : GatewayEvent) :
      Reachable s → Reachable (gatewayStep s e).1
  | sendNode (s : EngineState) (eventName : String) :
      Reachable s → Reachable (sendNodeEvent s eventName).2.1
  | sendOk (s : EngineState) (invokeId nodeId : String) :
      Reachable s → Reachable (sendInvokeOk s invokeId nodeId).2.1
  | sendErr (s : EngineState) (invokeId nodeId code message : String) :
      Reachable s → Reachable (sendInvokeError s invokeId nodeId code message).2.1

/-- Modelled from the spec: GatewayClient::buildDeviceAuthPayload is not in
the available source surface.  The header declares it as
buildDeviceAuthPayload(signedAtMs, tokenForSignature), so the token used
for the signature is an input of the payload builder: the canonical payload
string contains the device identity, the nonce, the timestamp and the
token, joined by a separator (the exact layout is the open question of
section 9 of the specification; what the declaration pins is that the token
is part of the payload). -/
def buildDeviceAuthPayload (deviceId nonce : String) (signedAtMs : Nat)
    (tokenForSignature : String) : String :=
  deviceId ++ "|" ++ nonce ++ "|" ++ String.mk (natDecChars signedAtMs) ++ "|" ++
    tokenForSignature

/-- Modelled from the header surface: the handshake signature is the
lowercase SHA-256 hex digest (the only hash helper the header declares) of
the device-auth payload, which contains the token. -/
def signDeviceAuth (deviceId nonce : String) (signedAtMs : Nat)
    (tokenForSignature : String) : String :=
  sha256Hex (strBytes (buildDeviceAuthPayload deviceId nonce signedAtMs tokenForSignature))

/-- The construction claimed by the specification, for comparison: a
canonical payload built from the nonce and the timestamp only. -/
def specKeyedPayload (nonce : String) (signedAtMs : Nat) : String :=
  nonce ++ "|" ++ String.mk (natDecChars signedAtMs)

/-- The construction claimed by the specification, for comparison: a keyed
cryptographic hash — HMAC-SHA256, the construction the specification names
— with the secret as the key of the hash and the payload as the message,
the secret not being part of the hashed message. -/
def signSpecKeyed (nonce : String) (signedAtMs : Nat) (secret : String) : String :=
  bytesToHex (hmacSha256 (strBytes secret) (strBytes (specKeyedPayload nonce signedAtMs)))

/-- A concrete mid-handshake state: device-token authentication in flight,
shared credential configured, fallback still available. -/
def fallbackDemoState : EngineState :=
  { initState with
      config := { gatewayUrl := "ws://gw.local:9000/v1", gatewayToken := "shared-tok",
                  gatewayPassword := "", preferSharedAuth := false }
      connState := ConnState.Authenticating
      shouldConnect := true
      wsConnected := true
      connectRequestId := "connect-1"
      reqCounter := 1
      attempt := some { nonce := "nonce-a", challengeIssuedAtMs := 5, queuedAtMs := 5,
                        requestSent := true, usedDeviceToken := true,
                        canFallbackToShared := true }
      pending := [{ id := "connect-1", method := "connect" }] }

/-- A concrete ready state used to exercise the send operations. -/
def readyDemoState : EngineState :=
  { fallbackDemoState with
      connState := ConnState.Ready
      gatewayReady := true
      attempt := none
      pending := [] }

/-- One push keeps the inbox within capacity. -/
theorem pushInboxMessage_length_le (inbox : List GatewayInboxMessage)
    (m : GatewayInboxMessage) (h : inbox.length ≤ 24) :
    (pushInboxMessage inbox m).length ≤ 24 := by
  unfold pushInboxMessage kInboxCapacity
  split
  · simp only [List.length_append, List.length_drop, List.length_cons,
      List.length_nil]
    omega
  · simp only [List.length_append, List.length_cons, List.length_nil]
    omega

/-- Any sequence of pushes keeps the inbox within capacity. -/
theorem foldl_pushInboxMessage_length_le (ms : List GatewayInboxMessage) :
    ∀ acc : List GatewayInboxMessage, acc.length ≤ 24 →
      (ms.foldl pushInboxMessage acc).length ≤ 24 := by
  induction ms with
  | nil => intro acc h; simpa using h
  | cons m rest ih =>
      intro acc h
      exact ih (pushInboxMessage acc m) (pushInboxMessage_length_le acc m h)

/-- While within capacity, pushes are plain appends. -/
theorem foldl_pushInboxMessage_append (ms : List GatewayInboxMessage) :
    ∀ acc : List GatewayInboxMessage, acc.length + ms.length ≤ 24 →
      ms.foldl pushInboxMessage acc = acc ++ ms := by
  induction ms with
  | nil => intro acc _; simp
  | cons m rest ih =>
      intro acc h
      simp only [List.length_cons] at h
      have hacc : acc.length ≠ 24 := by omega
      have hpush : pushInboxMessage acc m = acc ++ [m] := by
        unfold pushInboxMessage kInboxCapacity
        simp [hacc]
      simp only [List.foldl_cons, hpush]
      rw [ih (acc ++ [m]) (by simp; omega)]
      simp

/-- Claim C5: for every sequence of inbox pushes the count never exceeds the
capacity 24; a push performed at count 24 evicts exactly the oldest message
(index 0) before appending, preserving the insertion order of the remaining
messages; after N pushes with N at most 24 the inbox holds exactly those N
messages in order; and clearInbox resets the count to 0. -/
theorem inbox_capacity_fifo_clear :
    (∀ ms : List GatewayInboxMessage,
        inboxCount (ms.foldl pushInboxMessage []) ≤ kInboxCapacity) ∧
    (∀ (inbox : List GatewayInboxMessage) (m : GatewayInboxMessage),
        inboxCount inbox = kInboxCapacity →
        pushInboxMessage inbox m = inbox.drop 1 ++ [m]) ∧
    (∀ ms : List GatewayInboxMessage, ms.length ≤ kInboxCapacity →
        ms.foldl pushInboxMessage [] = ms) ∧
    (∀ inbox : List GatewayInboxMessage, inboxCount (clearInbox inbox) = 0) := by
  refine ⟨?_, ?_, ?_, ?_⟩
  · intro ms
    exact foldl_pushInboxMessage_length_le ms [] (by simp)
  · intro inbox m h
    unfold pushInboxMessage
    simp only [inboxCount] at h
    simp [h]
  · intro ms h
    have := foldl_pushInboxMessage_append ms [] (by simpa using h)
    simpa using this
  · intro inbox
    rfl

/-- Claim C5 witness: concrete instances of the capacity bound, the eviction
shape and clearing. -/
theorem inbox_capacity_fifo_clear_witness :
    inboxCount
        (List.foldl pushInboxMessage []
          (List.replicate 30 ({ id := "m", event := "msg.text", msgType := "",
                                msgFrom := "", msgTo := "", text := "", fileName := "",
                                contentType := "", voiceBytes := 0,
                                tsMs := 0 } : GatewayInboxMessage))) ≤ kInboxCapacity ∧
    inboxCount (clearInbox []) = 0 :=
  ⟨inbox_capacity_fifo_clear.1 (List.replicate 30 _),
   inbox_capacity_fifo_clear.2.2.2 []⟩

/-- Claim C10: for a freshly constructed engine, before configure or any
connect call, status() returns shouldConnect false, wsConnected false,
gatewayReady false, an empty lastError, lastConnectAttemptMs 0 and
lastConnectOkMs 0, and isReady() returns false — the default member
initializers of the header. -/
theorem initState_status_defaults :
    status initState =
      { shouldConnect := false, wsConnected := false, gatewayReady := false,
        lastError := "", lastConnectAttemptMs := 0, lastConnectOkMs := 0 } ∧
    isReady initState = false :=
  ⟨rfl, rfl⟩

/-- Claim C2: whenever gatewayReady is false, each send operation returns
false, writes no frame on the transport, and leaves the engine state
unchanged. -/
theorem sends_refused_when_not_ready (s : EngineState)
    (h : s.gatewayReady = false)
    (eventName invokeId nodeId code message : String) :
    sendNodeEvent s eventName = (false, s, []) ∧
    sendInvokeOk s invokeId nodeId = (false, s, []) ∧
    sendInvokeError s invokeId nodeId code message = (false, s, []) := by
  unfold sendNodeEvent sendInvokeOk sendInvokeError isReady
  simp [h]

/-- Claim C2 witness: the refusal at the freshly constructed engine. -/
theorem sends_refused_when_not_ready_witness :
    initState.gatewayReady = false ∧
    sendNodeEvent initState "telemetry" = (false, initState, []) :=
  ⟨rfl, (sends_refused_when_not_ready initState rfl "telemetry" "i1" "n1" "E" "m").1⟩

/-- Claim C3: disconnectNow from any state forces gatewayReady false in the
status projection, returns the machine to Idle, discards the ConnectAttempt
and all PendingRequests, emits nothing, and a later-arriving response frame
for any id — in particular one matching a pre-disconnect request — is
treated as RequestNotFound instead of being correlated. -/
theorem disconnectNow_discards_everything (s : EngineState) (rid : String)
    (res : GatewayResponse) (nowMs : Nat) :
    (status (gatewayStep s GatewayEvent.disconnectNow).1).gatewayReady = false ∧
    (gatewayStep s GatewayEvent.disconnectNow).1.connState = ConnState.Idle ∧
    (gatewayStep s GatewayEvent.disconnectNow).1.attempt = none ∧
    (gatewayStep s GatewayEvent.disconnectNow).1.pending = [] ∧
    (gatewayStep s GatewayEvent.disconnectNow).2 = [] ∧
    gatewayStep (gatewayStep s GatewayEvent.disconnectNow).1
        (GatewayEvent.response rid res nowMs) =
      ((gatewayStep s GatewayEvent.disconnectNow).1,
       [GatewayOutput.requestNotFoundLog rid]) :=
  ⟨rfl, rfl, rfl, rfl, rfl, rfl⟩

/-- Code point of a decimal digit character. -/
theorem digitChar_toNat (d : Nat) (h : d < 10) : (digitChar d).toNat = 48 + d := by
  interval_cases d <;> rfl

/-- Decimal digit characters are never the separator. -/
theorem digitChar_ne_dash (d : Nat) : digitChar d ≠ '-' := by
  unfold digitChar
  by_cases h : d < 10
  · interval_cases d <;> decide
  · rw [List.getD_eq_default]
    · decide
    · have hlen : decDigits.length = 10 := rfl
      omega

/-- Value of a rendered decimal string under any accumulator. -/
theorem natDecCharsAux_foldl (fuel : Nat) :
    ∀ n acc, n < fuel →
      List.foldl (fun a c => a * 10 + (c.toNat - 48)) acc (natDecCharsAux fuel n) =
        acc * 10 ^ (natDecCharsAux fuel n).length + n := by
  induction fuel with
  | zero => intro n acc h; omega
  | succ fuel ih =>
      intro n acc h
      unfold natDecCharsAux
      by_cases hn : n < 10
      · simp only [hn, if_true, List.foldl_cons, List.foldl_nil,
          List.length_cons, List.length_nil, digitChar_toNat n hn]
        simp [pow_one]
      · simp only [hn, if_false, List.foldl_append, List.foldl_cons,
          List.foldl_nil, List.length_append, List.length_cons, List.length_nil]
        have hrec : n / 10 < fuel := by omega
        rw [ih (n / 10) acc hrec]
        have hd : (digitChar (n % 10)).toNat - 48 = n % 10 := by
          rw [digitChar_toNat (n % 10) (by omega)]
          omega
        rw [hd]
        have hsplit : 10 * (n / 10) + n % 10 = n := Nat.div_add_mod n 10
        calc (acc * 10 ^ (natDecCharsAux fuel (n / 10)).length + n / 10) * 10 + n % 10
            = acc * (10 ^ (natDecCharsAux fuel (n / 10)).length * 10) +
                (10 * (n / 10) + n % 10) := by ring
          _ = acc * 10 ^ ((natDecCharsAux fuel (n / 10)).length + 0 + 1) + n := by
                rw [hsplit, pow_succ]
  
/-- The decimal rendering decodes back to its value. -/
theorem decNum_natDecChars (n : Nat) : decNum (natDecChars n) = n := by
  unfold decNum natDecChars
  rw [natDecCharsAux_foldl (n + 1) n 0 (by omega)]
  simp

/-- Decimal renderings of distinct numbers are distinct. -/
theorem natDecChars_injective (n m : Nat) (h : natDecChars n = natDecChars m) :
    n = m := by
  have hn := decNum_natDecChars n
  rw [h, decNum_natDecChars] at hn
  omega

/-- The separator never occurs inside a decimal rendering. -/
theorem natDecCharsAux_no_dash (fuel : Nat) :
    ∀ n, '-' ∉ natDecCharsAux fuel n := by
  induction fuel with
  | zero => intro n; simp [natDecCharsAux]
  | succ fuel ih =>
      intro n
      unfold natDecCharsAux
      by_cases hn : n < 10
      · simp only [hn, if_true, List.mem_singleton]
        exact fun hh => digitChar_ne_dash n hh.symm
      · simp only [hn, if_false, List.mem_append, List.mem_singleton]
        rintro (hmem | hmem)
        · exact ih (n / 10) hmem
        · exact digitChar_ne_dash (n % 10) hmem.symm

/-- The separator never occurs inside a decimal rendering. -/
theorem natDecChars_no_dash (n : Nat) : '-' ∉ natDecChars n :=
  natDecCharsAux_no_dash (n + 1) n

/-- Splitting at a separator that occurs in neither leading part is
unambiguous. -/
theorem sep_split_unique (u1 : List Char) :
    ∀ u2 v1 v2 : List Char, '-' ∉ u1 → '-' ∉ u2 →
      u1 ++ '-' :: v1 = u2 ++ '-' :: v2 → u1 = u2 ∧ v1 = v2 := by
  induction u1 with
  | nil =>
      intro u2 v1 v2 _ h2 he
      cases u2 with
      | nil => simpa using he
      | cons c t =>
          simp only [List.nil_append, List.cons_append, List.cons.injEq] at he
          exact absurd (List.mem_cons_self c t) (he.1 ▸ h2)
  | cons c t ih =>
      intro u2 v1 v2 h1 h2 he
      cases u2 with
      | nil =>
          simp only [List.cons_append, List.nil_append, List.cons.injEq] at he
          exact absurd (List.mem_cons_self c t) (he.1 ▸ h1)
      | cons c2 t2 =>
          simp only [List.cons_append, List.cons.injEq] at he
          have hrec := ih t2 v1 v2 (fun hm => h1 (List.mem_cons_of_mem c hm))
            (fun hm => h2 (List.mem_cons_of_mem c2 hm)) he.2
          exact ⟨by rw [he.1, hrec.1], hrec.2⟩

/-- A string of the form tag-digits determines its digits part. -/
theorem reqIdString_digits_injective (t1 t2 : String) (n1 n2 : Nat)
    (h : reqIdString t1 n1 = reqIdString t2 n2) : n1 = n2 := by
  unfold reqIdString at h
  have hd : t1.data ++ '-' :: natDecChars n1 = t2.data ++ '-' :: natDecChars n2 := by
    have := congrArg String.data h
    simpa [String.data_append] using this
  have hrev : (natDecChars n1).reverse ++ '-' :: t1.data.reverse =
      (natDecChars n2).reverse ++ '-' :: t2.data.reverse := by
    have := congrArg List.reverse hd
    simpa [List.reverse_append] using this
  have hsplit := sep_split_unique (natDecChars n1).reverse
    (natDecChars n2).reverse t1.data.reverse t2.data.reverse
    (by simpa using natDecChars_no_dash n1)
    (by simpa using natDecChars_no_dash n2) hrev
  exact natDecChars_injective n1 n2 (List.reverse_injective hsplit.1)

/-- Claim C9: any two calls to nextReqId made at distinct counter values —
with any tags — return distinct id strings; each call advances the counter
by one (monotonically increasing), and no transition of the machine ever
decreases the counter, so ids are never reused within a connection
lifetime. -/
theorem nextReqId_ids_unique (s1 s2 : EngineState) (tag1 tag2 : String)
    (h : s1.reqCounter ≠ s2.reqCounter) :
    (nextReqId s1 tag1).1 ≠ (nextReqId s2 tag2).1 ∧
    (nextReqId s1 tag1).2.reqCounter = s1.reqCounter + 1 ∧
    (∀ e : GatewayEvent, s1.reqCounter ≤ (gatewayStep s1 e).1.reqCounter) ∧
    (∀ eventName : String,
        s1.reqCounter ≤ (sendNodeEvent s1 eventName).2.1.reqCounter) := by
  refine ⟨?_, rfl, ?_, ?_⟩
  · intro he
    exact h (by
      have := reqIdString_digits_injective tag1 tag2
        (s1.reqCounter + 1) (s2.reqCounter + 1) he
      omega)
  · intro e
    cases e <;> simp only [gatewayStep] <;> (repeat' split) <;>
      first
        | (simp only [nextReqId, teardownToIdle]; simp; try omega)
        | (simp [nextReqId, teardownToIdle]; try omega)
  · intro eventName
    unfold sendNodeEvent
    split
    · simp [nextReqId]
    · exact Nat.le_refl _

/-- Claim C9 witness: two successive ids at the fresh engine differ. -/
theorem nextReqId_ids_unique_witness :
    initState.reqCounter ≠ (nextReqId initState "node").2.reqCounter ∧
    (nextReqId initState "node").1 ≠
      (nextReqId (nextReqId initState "node").2 "evt").1 :=
  ⟨by decide,
   (nextReqId_ids_unique initState (nextReqId initState "node").2 "node" "evt"
     (by decide)).1⟩

/-- Decoding inverts the alphabet map on 6-bit values. -/
theorem b64Val_b64Char (v : Nat) (h : v < 64) : b64Val (b64Char v) = some v := by
  interval_cases v <;> rfl

/-- No 6-bit value encodes to the padding character. -/
theorem b64Char_ne_pad (v : Nat) (h : v < 64) : b64Char v ≠ '=' := by
  interval_cases v <;> decide

/-- Character-level decode of character-level encode. -/
theorem decode_encode_chars (xs : List Nat) (hx : ∀ x ∈ xs, x < 256) :
    decodeBase64UrlChars (encodeBase64UrlChars xs) = some xs := by
  induction xs using encodeBase64UrlChars.induct with
  | case1 => rfl
  | case2 a =>
      have ha : a < 256 := hx a (by simp)
      simp only [encodeBase64UrlChars, decodeBase64UrlChars,
        b64Val_b64Char (a / 4) (by omega),
        b64Val_b64Char (a % 4 * 16) (by omega)]
      unfold decodeB64First
      congr 1
      congr 1
      omega
  | case3 a b =>
      have ha : a < 256 := hx a (by simp)
      have hb : b < 256 := hx b (by simp)
      simp only [encodeBase64UrlChars, decodeBase64UrlChars,
        b64Val_b64Char (a / 4) (by omega),
        b64Val_b64Char (a % 4 * 16 + b / 16) (by omega),
        b64Val_b64Char (b % 16 * 4) (by omega)]
      unfold decodeB64First decodeB64Second
      congr 1
      congr 1
      · omega
      · congr 1
        omega
  | case4 a b c rest ih =>
      have ha : a < 256 := hx a (by simp)
      have hb : b < 256 := hx b (by simp)
      have hc : c < 256 := hx c (by simp)
      have hrest : ∀ x ∈ rest, x < 256 := fun x hxm => hx x (by simp [hxm])
      simp only [encodeBase64UrlChars, decodeBase64UrlChars,
        b64Val_b64Char (a / 4) (by omega),
        b64Val_b64Char (a % 4 * 16 + b / 16) (by omega),
        b64Val_b64Char (b % 16 * 4 + c / 64) (by omega),
        b64Val_b64Char (c % 64) (by omega),
        ih hrest]
      unfold decodeB64First decodeB64Second decodeB64Third
      congr 1
      congr 1
      · omega
      · congr 1
        · omega
        · congr 1
          omega

/-- The encoder never emits the padding character. -/
theorem encode_no_padding (xs : List Nat) (hx : ∀ x ∈ xs, x < 256) :
    '=' ∉ encodeBase64UrlChars xs := by
  induction xs using encodeBase64UrlChars.induct with
  | case1 => simp [encodeBase64UrlChars]
  | case2 a =>
      have ha : a < 256 := hx a (by simp)
      simp only [encodeBase64UrlChars, List.mem_cons, List.not_mem_nil, or_false]
      rintro (hm | hm)
      · exact b64Char_ne_pad (a / 4) (by omega) hm.symm
      · exact b64Char_ne_pad (a % 4 * 16) (by omega) hm.symm
  | case3 a b =>
      have ha : a < 256 := hx a (by simp)
      have hb : b < 256 := hx b (by simp)
      simp only [encodeBase64UrlChars, List.mem_cons, List.not_mem_nil, or_false]
      rintro (hm | hm | hm)
      · exact b64Char_ne_pad (a / 4) (by omega) hm.symm
      · exact b64Char_ne_pad (a % 4 * 16 + b / 16) (by omega) hm.symm
      · exact b64Char_ne_pad (b % 16 * 4) (by omega) hm.symm
  | case4 a b c rest ih =>
      have ha : a < 256 := hx a (by simp)
      have hb : b < 256 := hx b (by simp)
      have hc : c < 256 := hx c (by simp)
      have hrest : ∀ x ∈ rest, x < 256 := fun x hxm => hx x (by simp [hxm])
      simp only [encodeBase64UrlChars, List.mem_cons]
      rintro (hm | hm | hm | hm | hm)
      · exact b64Char_ne_pad (a / 4) (by omega) hm.symm
      · exact b64Char_ne_pad (a % 4 * 16 + b / 16) (by omega) hm.symm
      · exact b64Char_ne_pad (b % 16 * 4 + c / 64) (by omega) hm.symm
      · exact b64Char_ne_pad (c % 64) (by omega) hm.symm
      · exact ih hrest hm

/-- Claim C6: for every byte buffer, decoding the base64url encoding with the
exact expected output length returns the original bytes, and the encoding
contains no padding character.  The decoder consumes unpadded input, so
tolerance of absent padding is inherent. -/
theorem base64url_roundtrip (xs : List Nat) (hx : ∀ x ∈ xs, x < 256) :
    decodeBase64Url (encodeBase64Url xs) xs.length = some xs ∧
    '=' ∉ (encodeBase64Url xs).data := by
  constructor
  · unfold decodeBase64Url encodeBase64Url
    rw [show (String.mk (encodeBase64UrlChars xs)).data = encodeBase64UrlChars xs
          from rfl]
    rw [decode_encode_chars xs hx]
    simp
  · exact encode_no_padding xs hx

/-- Claim C6 witness: the roundtrip at a concrete buffer spanning low, high
and middle byte values. -/
theorem base64url_roundtrip_witness :
    (∀ x ∈ [0, 255, 100, 7, 128], x < 256) ∧
    decodeBase64Url (encodeBase64Url [0, 255, 100, 7, 128])
        (List.length [0, 255, 100, 7, 128]) = some [0, 255, 100, 7, 128] :=
  ⟨by decide, (base64url_roundtrip [0, 255, 100, 7, 128] (by decide)).1⟩

/-- A parsed port is always in range. -/
theorem parsePortNumber_range (cs : List Char) (v : Nat)
    (h : parsePortNumber cs = some v) : 1 ≤ v ∧ v ≤ 65535 := by
  unfold parsePortNumber at h
  split at h
  · exact absurd h (by simp)
  · split at h
    · split at h
      · rename_i hcond
        cases Option.some.inj h
        exact hcond
      · exact absurd h (by simp)
    · exact absurd h (by simp)

/-- The port of a parsed authority is the in-range default or a parsed
in-range value. -/
theorem parseHostPort_range (hostPort : List Char) (dp : Nat)
    (hp : List Char × Nat) (hdp : 1 ≤ dp ∧ dp ≤ 65535)
    (h : parseHostPort hostPort dp = some hp) : 1 ≤ hp.2 ∧ hp.2 ≤ 65535 := by
  unfold parseHostPort at h
  repeat' split at h
  all_goals try exact Option.noConfusion h
  all_goals injection h with h2
  all_goals subst h2
  · rename_i heq
    exact parsePortNumber_range _ _ heq
  · exact hdp
  · rename_i heq
    exact parsePortNumber_range _ _ heq
  · exact hdp

/-- A successfully parsed endpoint has a non-empty host, an in-range port,
and the scheme security flag it was called with. -/
theorem parseGatewayRest_sound (sec : Bool) (dp : Nat) (rest : List Char)
    (e : GatewayEndpoint) (hdp : 1 ≤ dp ∧ dp ≤ 65535)
    (h : parseGatewayRest sec dp rest = some e) :
    e.host ≠ "" ∧ 1 ≤ e.port ∧ e.port ≤ 65535 ∧ e.secure = sec := by
  unfold parseGatewayRest at h
  split at h
  · exact Option.noConfusion h
  · split at h
    · rename_i hp hph
      split at h
      · exact Option.noConfusion h
      · rename_i hne
        injection h with h2
        subst h2
        refine ⟨?_, (parseHostPort_range _ _ _ hdp hph).1,
          (parseHostPort_range _ _ _ hdp hph).2, rfl⟩
        intro hs
        exact hne (by
          have := congrArg String.data hs
          simpa using this)
    · exact Option.noConfusion h

/-- Splitting at a character that does not occur returns the whole list. -/
theorem splitAtFirst_not_mem (sep : Char) (cs : List Char) (h : sep ∉ cs) :
    splitAtFirst sep cs = (cs, none) := by
  induction cs with
  | nil => rfl
  | cons x xs ih =>
      have hx : ¬x = sep := fun hxe => h (hxe ▸ List.mem_cons_self x xs)
      have hxs : sep ∉ xs := fun hm => h (List.mem_cons_of_mem x hm)
      simp [splitAtFirst, hx, ih hxs]

/-- An authority with no colon, bracket or slash parses as a bare host with
the default port. -/
theorem parseHostPort_plain (c0 : Char) (tail : List Char) (dp : Nat)
    (hc0 : c0 ≠ '[')
    (hfil : ((c0 :: tail).filter (fun c => c = ':')).length ≠ 1) :
    parseHostPort (c0 :: tail) dp = some (c0 :: tail, dp) := by
  unfold parseHostPort
  split
  · rename_i inner heq
    injection heq with h1 h2
    exact absurd h1 hc0
  · rename_i c0x tailx heq
    injection heq with h1 h2
    subst h1
    subst h2
    rw [if_neg (by
      intro hcond
      exact hfil hcond.1)]
  · rename_i heq
    exact List.noConfusion heq

/-- A plain host after the scheme yields the by-scheme default port and the
root path. -/
theorem parseGatewayRest_defaults (sec : Bool) (dp : Nat) (host : List Char)
    (hne : host ≠ [])
    (hch : ∀ c ∈ host, c ≠ '/' ∧ c ≠ ':' ∧ c ≠ '[') :
    parseGatewayRest sec dp host =
      some { secure := sec, host := String.mk host, port := dp, path := "/" } := by
  have hslash : '/' ∉ host := fun hm => ((hch _ hm).1 rfl)
  have hsplit := splitAtFirst_not_mem '/' host hslash
  have hhp : parseHostPort host dp = some (host, dp) := by
    cases host with
    | nil => exact absurd rfl hne
    | cons c0 tail =>
        have hc0 : c0 ≠ '[' := (hch c0 (List.mem_cons_self _ _)).2.2
        have hfil : ((c0 :: tail).filter (fun c => c = ':')) = [] := by
          rw [List.filter_eq_nil_iff]
          intro a ha
          simp only [decide_eq_true_eq]
          exact (hch a ha).2.1
        exact parseHostPort_plain c0 tail dp hc0 (by rw [hfil]; simp)
  unfold parseGatewayRest
  rw [hsplit]
  simp only [hne, if_neg, hhp]
  simp [hne]

/-- Claim C8: the endpoint parser accepts exactly the two literal scheme
prefixes; every accepted URL has a non-empty host and an in-range port;
with a plain host and no port or path given, the port defaults to 80 for
the insecure scheme and 443 for the secure scheme and the path defaults to
the root path; and structurally violating inputs — missing scheme, empty
host, non-numeric or out-of-range port — fail (the function returns none,
the InvalidUrl outcome).  The model is a pure function, so the no-side-
effects part of the claim is inherent in its type. -/
theorem parseGatewayUrl_contract :
    (∀ (u : String) (e : GatewayEndpoint), parseGatewayUrl u = some e →
       (∃ rest, u.data = 'w' :: 's' :: ':' :: '/' :: '/' :: rest) ∨
       (∃ rest, u.data = 'w' :: 's' :: 's' :: ':' :: '/' :: '/' :: rest)) ∧
    (∀ (u : String) (e : GatewayEndpoint), parseGatewayUrl u = some e →
       e.host ≠ "" ∧ 1 ≤ e.port ∧ e.port ≤ 65535) ∧
    (∀ host : List Char, host ≠ [] →
       (∀ c ∈ host, c ≠ '/' ∧ c ≠ ':' ∧ c ≠ '[') →
       parseGatewayUrl (String.mk ('w' :: 's' :: ':' :: '/' :: '/' :: host)) =
         some { secure := false, host := String.mk host, port := 80, path := "/" } ∧
       parseGatewayUrl (String.mk ('w' :: 's' :: 's' :: ':' :: '/' :: '/' :: host)) =
         some { secure := true, host := String.mk host, port := 443, path := "/" }) ∧
    (parseGatewayUrl "http://gw" = none ∧ parseGatewayUrl "ws://" = none ∧
     parseGatewayUrl "ws:///p" = none ∧ parseGatewayUrl "ws://h:x" = none ∧
     parseGatewayUrl "ws://h:70000" = none ∧ parseGatewayUrl "ws://h:0" = none ∧
     parseGatewayUrl "ws://h:" = none ∧ parseGatewayUrl "ws://[]:80" = none) := by
  refine ⟨?_, ?_, ?_, ?_⟩
  · intro u e hp
    unfold parseGatewayUrl at hp
    split at hp
    · exact Or.inl ⟨_, by assumption⟩
    · exact Or.inr ⟨_, by assumption⟩
    · exact Option.noConfusion hp
  · intro u e hp
    unfold parseGatewayUrl at hp
    split at hp
    · have := parseGatewayRest_sound false 80 _ e (by omega) hp
      exact ⟨this.1, this.2.1, this.2.2.1⟩
    · have := parseGatewayRest_sound true 443 _ e (by omega) hp
      exact ⟨this.1, this.2.1, this.2.2.1⟩
    · exact Option.noConfusion hp
  · intro host hne hch
    constructor
    · exact parseGatewayRest_defaults false 80 host hne hch
    · exact parseGatewayRest_defaults true 443 host hne hch
  · exact ⟨rfl, rfl, rfl, rfl, rfl, rfl, rfl, rfl⟩

/-- Claim C8 witness: the contract instantiated at a concrete host. -/
theorem parseGatewayUrl_contract_witness :
    parseGatewayUrl "ws://gw" =
      some { secure := false, host := "gw", port := 80, path := "/" } ∧
    parseGatewayUrl "wss://gw" =
      some { secure := true, host := "gw", port := 443, path := "/" } :=
  parseGatewayUrl_contract.2.2.1 ['g', 'w'] (by decide) (by decide)

/-- One transition preserves the connection-flag invariant. -/
theorem gatewayStep_preserves_conn_inv (s : EngineState) (e : GatewayEvent)
    (h1 : s.gatewayReady = true → s.wsConnected = true)
    (h2 : s.wsConnected = false → s.attempt = none ∧ s.pending = []) :
    ((gatewayStep s e).1.gatewayReady = true →
       (gatewayStep s e).1.wsConnected = true) ∧
    ((gatewayStep s e).1.wsConnected = false →
       (gatewayStep s e).1.attempt = none ∧ (gatewayStep s e).1.pending = []) := by
  cases e with
  | configure cfg =>
      simp only [gatewayStep]
      split
      · simp [teardownToIdle]
      · split
        · simp [teardownToIdle]
        · simp only []
          exact ⟨by simpa using h1, by simpa using h2⟩
  | connectNow =>
      simp only [gatewayStep]
      cases parseGatewayUrl s.config.gatewayUrl with
      | some ep => exact ⟨by simpa using h1, by simpa using h2⟩
      | none => exact ⟨by simpa using h1, by simpa using h2⟩
  | reconnectNow =>
      simp only [gatewayStep]
      cases parseGatewayUrl s.config.gatewayUrl with
      | some ep => simp [teardownToIdle]
      | none => exact ⟨by simpa using h1, by simpa using h2⟩
  | disconnectNow =>
      simp [gatewayStep, teardownToIdle]
  | tickTimer nowMs =>
      simp only [gatewayStep]
      repeat' split
      all_goals exact ⟨by simpa using h1, by simpa using h2⟩
  | transportOpen nonce nowMs =>
      simp only [gatewayStep]
      split
      · simp [nextReqId]
      · exact ⟨by simpa using h1, by simpa using h2⟩
  | transportClosed duringTls detail =>
      simp [gatewayStep, teardownToIdle]
  | response rid res nowMs =>
      simp only [gatewayStep]
      cases hlook : lookupPending s.pending rid with
      | none => exact ⟨by simpa using h1, by simpa using h2⟩
      | some m =>
          have hws : s.wsConnected = true := by
            cases hwsc : s.wsConnected with
            | false =>
                have := (h2 hwsc).2
                rw [this] at hlook
                exact Option.noConfusion hlook
            | true => rfl
          dsimp only
          split
          · cases res with
            | ok => simp [hws]
            | authRejected =>
                cases s.attempt with
                | none => simp [teardownToIdle]
                | some att =>
                    by_cases hfb : att.usedDeviceToken = true ∧
                        att.canFallbackToShared = true ∧
                        hasSharedCredential s.config = true
                    · simp [hfb, nextReqId, hws]
                    · simp [hfb, teardownToIdle]
            | otherError code => simp [teardownToIdle]
          · simp only []
            exact ⟨by simpa using h1, by simp [hws]⟩
  | messageEvent m =>
      simp only [gatewayStep]
      exact ⟨by simpa using h1, by simpa using h2⟩

/-- The send operations preserve the connection-flag invariant. -/
theorem sends_preserve_conn_inv (s : EngineState)
    (h1 : s.gatewayReady = true → s.wsConnected = true)
    (h2 : s.wsConnected = false → s.attempt = none ∧ s.pending = [])
    (eventName invokeId nodeId code message : String) :
    (∀ t : EngineState,
       t = (sendNodeEvent s eventName).2.1 ∨ t = (sendInvokeOk s invokeId nodeId).2.1 ∨
       t = (sendInvokeError s invokeId nodeId code message).2.1 →
       (t.gatewayReady = true → t.wsConnected = true) ∧
       (t.wsConnected = false → t.attempt = none ∧ t.pending = [])) := by
  intro t ht
  have hcore : ∀ u : EngineState, u = s ∨
      (u.gatewayReady = s.gatewayReady ∧ u.wsConnected = s.wsConnected ∧
       u.attempt = s.attempt ∧ s.gatewayReady = true) →
      (u.gatewayReady = true → u.wsConnected = true) ∧
      (u.wsConnected = false → u.attempt = none ∧ u.pending = []) := by
    intro u hu
    rcases hu with rfl | ⟨hg, hw, ha, hr⟩
    · exact ⟨h1, h2⟩
    · constructor
      · intro _
        rw [hw]
        exact h1 hr
      · intro hwf
        rw [hw] at hwf
        rw [h1 hr] at hwf
        exact Bool.noConfusion hwf
  rcases ht with rfl | rfl | rfl
  · unfold sendNodeEvent
    split
    · rename_i hr
      refine hcore _ (Or.inr ⟨rfl, rfl, rfl, ?_⟩)
      simpa [isReady] using hr
    · exact hcore _ (Or.inl rfl)
  · unfold sendInvokeOk
    split
    · rename_i hr
      refine hcore _ (Or.inr ⟨rfl, rfl, rfl, ?_⟩)
      simpa [isReady] using hr
    · exact hcore _ (Or.inl rfl)
  · unfold sendInvokeError
    split
    · rename_i hr
      refine hcore _ (Or.inr ⟨rfl, rfl, rfl, ?_⟩)
      simpa [isReady] using hr
    · exact hcore _ (Or.inl rfl)

/-- Claim C1: in every reachable state of the connection state machine,
gatewayReady implies wsConnected; whenever wsConnected is false,
gatewayReady is forced to false and the in-progress ConnectAttempt and all
PendingRequests are discarded. -/
theorem reachable_conn_invariant (s : EngineState) (h : Reachable s) :
    (s.gatewayReady = true → s.wsConnected = true) ∧
    (s.wsConnected = false →
      s.gatewayReady = false ∧ s.attempt = none ∧ s.pending = []) := by
  have core : (s.gatewayReady = true → s.wsConnected = true) ∧
      (s.wsConnected = false → s.attempt = none ∧ s.pending = []) := by
    induction h with
    | init => exact ⟨fun hx => Bool.noConfusion hx, fun _ => ⟨rfl, rfl⟩⟩
    | stepTo s e hs ih => exact gatewayStep_preserves_conn_inv s e ih.1 ih.2
    | sendNode s n hs ih =>
        exact sends_preserve_conn_inv s ih.1 ih.2 n "i" "n" "c" "m" _ (Or.inl rfl)
    | sendOk s invokeId nodeId hs ih =>
        exact sends_preserve_conn_inv s ih.1 ih.2 "x" invokeId nodeId "c" "m" _
          (Or.inr (Or.inl rfl))
    | sendErr s invokeId nodeId code message hs ih =>
        exact sends_preserve_conn_inv s ih.1 ih.2 "x" invokeId nodeId code message _
          (Or.inr (Or.inr rfl))
  refine ⟨core.1, fun hw => ⟨?_, core.2 hw⟩⟩
  cases hr : s.gatewayReady with
  | false => rfl
  | true =>
      rw [core.1 hr] at hw
      exact Bool.noConfusion hw

/-- Claim C1 witness: the invariant at the reachable initial state. -/
theorem reachable_conn_invariant_witness :
    Reachable initState ∧
    (initState.gatewayReady = true → initState.wsConnected = true) ∧
    (initState.wsConnected = false →
      initState.gatewayReady = false ∧ initState.attempt = none ∧
        initState.pending = []) :=
  ⟨Reachable.init, (reachable_conn_invariant initState Reachable.init).1,
   (reachable_conn_invariant initState Reachable.init).2⟩

/-- Evaluation of the handshake step on a device-token rejection with the
fallback still available: the engine resends the connect request with the
shared credential and consumes the fallback. -/
theorem gatewayStep_authRejected_fallback (s : EngineState) (att : ConnectAttempt)
    (nowMs : Nat) (hatt : s.attempt = some att) (hdev : att.usedDeviceToken = true)
    (hfb : att.canFallbackToShared = true)
    (hshared : hasSharedCredential s.config = true)
    (hpend : lookupPending s.pending s.connectRequestId = some "connect") :
    gatewayStep s (GatewayEvent.response s.connectRequestId
        GatewayResponse.authRejected nowMs) =
      ({ config := s.config, connState := s.connState,
         shouldConnect := s.shouldConnect, wsConnected := s.wsConnected,
         gatewayReady := s.gatewayReady,
         connectRequestId := reqIdString "connect" (s.reqCounter + 1),
         reqCounter := s.reqCounter + 1, lastError := s.lastError,
         lastConnectAttemptMs := s.lastConnectAttemptMs,
         lastConnectOkMs := s.lastConnectOkMs,
         attempt := some { nonce := att.nonce,
                           challengeIssuedAtMs := att.challengeIssuedAtMs,
                           queuedAtMs := att.queuedAtMs,
                           requestSent := att.requestSent,
                           usedDeviceToken := false, canFallbackToShared := false },
         pending := { id := reqIdString "connect" (s.reqCounter + 1),
                      method := "connect" } ::
                    removePending s.pending s.connectRequestId,
         inbox := s.inbox, tlsFailStreak := s.tlsFailStreak }, 
       [GatewayOutput.connectFrame false (reqIdString "connect" (s.reqCounter + 1))]) := by
  simp [gatewayStep, hpend, hatt, hdev, hfb, hshared, nextReqId]

/-- Evaluation of the handshake step on a rejection once the fallback has
been consumed (or was never available): the attempt fails into Idle and no
further connect frame is sent. -/
theorem gatewayStep_authRejected_fail (s : EngineState) (att : ConnectAttempt)
    (m : String) (nowMs : Nat) (hatt : s.attempt = some att)
    (hdev : att.usedDeviceToken = false)
    (hpend : lookupPending s.pending s.connectRequestId = some m) :
    gatewayStep s (GatewayEvent.response s.connectRequestId
        GatewayResponse.authRejected nowMs) =
      (teardownToIdle
        { s with pending := removePending s.pending s.connectRequestId }
        "AuthRejected", []) := by
  simp [gatewayStep, hpend, hatt, hdev]

/-- Evaluation of the handshake step on a successful connect response. -/
theorem gatewayStep_connectOk (s : EngineState) (m : String) (nowMs : Nat)
    (hpend : lookupPending s.pending s.connectRequestId = some m) :
    (gatewayStep s (GatewayEvent.response s.connectRequestId
        GatewayResponse.ok nowMs)).1.gatewayReady = true ∧
    (gatewayStep s (GatewayEvent.response s.connectRequestId
        GatewayResponse.ok nowMs)).1.connState = ConnState.Ready := by
  simp [gatewayStep, hpend]

/-- Claim C4: within a single connection attempt, when device-token
authentication is rejected with AuthRejected while the attempt still allows
the shared-credential fallback and a shared credential is configured, the
engine retries the handshake exactly once with the shared credential —
staying connected and sending the new connect frame itself, without caller
intervention, with the fallback consumed in the new attempt state; a second
rejection of the same attempt tears the machine down to Idle (backoff)
without any further fallback frame; and if the fallback is instead
accepted, the attempt succeeds. -/
theorem auth_fallback_exactly_once (s : EngineState) (att : ConnectAttempt)
    (nowMs nowMs2 : Nat)
    (hstate : s.connState = ConnState.Authenticating)
    (hatt : s.attempt = some att)
    (hdev : att.usedDeviceToken = true)
    (hfb : att.canFallbackToShared = true)
    (hshared : hasSharedCredential s.config = true)
    (hpend : lookupPending s.pending s.connectRequestId = some "connect") :
    (gatewayStep s (GatewayEvent.response s.connectRequestId
        GatewayResponse.authRejected nowMs)).1.connState =
      ConnState.Authenticating ∧
    (gatewayStep s (GatewayEvent.response s.connectRequestId
        GatewayResponse.authRejected nowMs)).1.wsConnected = s.wsConnected ∧
    (gatewayStep s (GatewayEvent.response s.connectRequestId
        GatewayResponse.authRejected nowMs)).2 =
      [GatewayOutput.connectFrame false
        (gatewayStep s (GatewayEvent.response s.connectRequestId
          GatewayResponse.authRejected nowMs)).1.connectRequestId] ∧
    (gatewayStep s (GatewayEvent.response s.connectRequestId
        GatewayResponse.authRejected nowMs)).1.attempt =
      some { att with usedDeviceToken := false, canFallbackToShared := false } ∧
    (gatewayStep
        (gatewayStep s (GatewayEvent.response s.connectRequestId
          GatewayResponse.authRejected nowMs)).1
        (GatewayEvent.response
          (gatewayStep s (GatewayEvent.response s.connectRequestId
            GatewayResponse.authRejected nowMs)).1.connectRequestId
          GatewayResponse.authRejected nowMs2)).1.connState = ConnState.Idle ∧
    (gatewayStep
        (gatewayStep s (GatewayEvent.response s.connectRequestId
          GatewayResponse.authRejected nowMs)).1
        (GatewayEvent.response
          (gatewayStep s (GatewayEvent.response s.connectRequestId
            GatewayResponse.authRejected nowMs)).1.connectRequestId
          GatewayResponse.authRejected nowMs2)).2 = [] ∧
    (gatewayStep
        (gatewayStep s (GatewayEvent.response s.connectRequestId
          GatewayResponse.authRejected nowMs)).1
        (GatewayEvent.response
          (gatewayStep s (GatewayEvent.response s.connectRequestId
            GatewayResponse.authRejected nowMs)).1.connectRequestId
          GatewayResponse.ok nowMs2)).1.gatewayReady = true := by
  have hstep := gatewayStep_authRejected_fallback s att nowMs hatt hdev hfb hshared hpend
  have hlook2 : lookupPending
      ({ id := reqIdString "connect" (s.reqCounter + 1), method := "connect" } ::
        removePending s.pending s.connectRequestId)
      (reqIdString "connect" (s.reqCounter + 1)) = some "connect" := by
    simp [lookupPending]
  refine ⟨?_, ?_, ?_, ?_, ?_, ?_, ?_⟩
  · rw [hstep]
    exact hstate
  · rw [hstep]
  · rw [hstep]
  · rw [hstep]
  · rw [hstep, gatewayStep_authRejected_fail _
      { nonce := att.nonce, challengeIssuedAtMs := att.challengeIssuedAtMs,
        queuedAtMs := att.queuedAtMs, requestSent := att.requestSent,
        usedDeviceToken := false, canFallbackToShared := false }
      "connect" nowMs2 rfl rfl hlook2]
    rfl
  · rw [hstep, gatewayStep_authRejected_fail _
      { nonce := att.nonce, challengeIssuedAtMs := att.challengeIssuedAtMs,
        queuedAtMs := att.queuedAtMs, requestSent := att.requestSent,
        usedDeviceToken := false, canFallbackToShared := false }
      "connect" nowMs2 rfl rfl hlook2]
  · rw [hstep]
    exact (gatewayStep_connectOk _ "connect" nowMs2 hlook2).1

/-- Claim C4 witness: the fallback retry at a concrete mid-handshake state. -/
theorem auth_fallback_exactly_once_witness :
    fallbackDemoState.connState = ConnState.Authenticating ∧
    hasSharedCredential fallbackDemoState.config = true ∧
    lookupPending fallbackDemoState.pending fallbackDemoState.connectRequestId =
      some "connect" ∧
    (gatewayStep fallbackDemoState
        (GatewayEvent.response fallbackDemoState.connectRequestId
          GatewayResponse.authRejected 6)).1.connState =
      ConnState.Authenticating :=
  ⟨rfl, by decide, by decide,
   (auth_fallback_exactly_once fallbackDemoState
      { nonce := "nonce-a", challengeIssuedAtMs := 5, queuedAtMs := 5,
        requestSent := true, usedDeviceToken := true, canFallbackToShared := true }
      6 7 rfl rfl rfl rfl (by decide) (by decide)).1⟩

set_option maxRecDepth 100000 in
/-- Claim C7 counterexample: at a concrete nonce, timestamp and secret, the
signature of the source surface (unkeyed SHA-256 hex over the device-auth
payload) differs from the keyed construction the claim describes
(HMAC-SHA256 with the secret as key over a payload built from nonce and
timestamp only), and the secret occurs inside the hashed payload itself —
so the secret is part of the hashed message, not the key of the hash. -/
theorem signDeviceAuth_not_keyed_mac :
    signDeviceAuth "dev" "nonce" 1 "secretTok" ≠
      signSpecKeyed "nonce" 1 "secretTok" ∧
    buildDeviceAuthPayload "dev" "nonce" 1 "secretTok" =
      "dev|nonce|1|" ++ "secretTok" :=
  ⟨by decide, rfl⟩

set_option maxRecDepth 100000 in
/-- Claim C7 (amended): the handshake signature is computed as an unkeyed
cryptographic hash — the lowercase SHA-256 hex digest declared by the
header — over a canonical payload string built from the device identity,
the nonce, signedAtMs and the secret token, with the secret entering as
part of the hashed message rather than as the key of a MAC; the signature
is deterministic in its inputs and, at the tested inputs, changes when the
timestamp, the secret or the nonce changes. -/
theorem signDeviceAuth_unkeyed_hash :
    (∀ (deviceId nonce : String) (signedAtMs : Nat) (token : String),
        signDeviceAuth deviceId nonce signedAtMs token =
          sha256Hex (strBytes
            (buildDeviceAuthPayload deviceId nonce signedAtMs token))) ∧
    signDeviceAuth "dev" "nonce" 5 "tok" ≠ signDeviceAuth "dev" "nonce" 6 "tok" ∧
    signDeviceAuth "dev" "nonce" 5 "tok" ≠ signDeviceAuth "dev" "nonce" 5 "tok2" ∧
    signDeviceAuth "dev" "nonce" 5 "tok" ≠ signDeviceAuth "dev" "nonce2" 5 "tok" :=
  ⟨fun _ _ _ _ => rfl, by decide, by decide, by decide⟩
